import Mathlib

/-!
Verification development for `tle/util/db/user_db_conn.py` (the `UserDbConn`
persistence layer of the TLE Discord bot, running against PostgreSQL through
psycopg2).

Shallow embedding conventions:

* The database state is a record of lists of rows, one list per table that the
  studied operations touch (tables the studied operations never read or write
  are omitted).  `SERIAL` id columns are modelled by carrying the sequence
  counter explicitly (PostgreSQL sequences start at 1 and do not roll back).
* SQL `INTEGER`/`BIGINT` columns are `Int`, nullable columns are `Option _`.
  `TEXT` columns that only ever hold `CAST(<integer> AS TEXT)` values are
  modelled by `Nat`: the cast is injective and every comparison in the source
  compares two values cast the same way, with `int(...)` recovering the number
  (`int ∘ str = id` on these ids).  `REAL` time columns are only ever stored
  and echoed back by the operations studied here — never computed with — so
  they are modelled by `Int`.
* A guarded `UPDATE ... WHERE pred` is a `List.map` that rewrites the rows
  satisfying `pred`, with `cur.rowcount = countP pred`.  A connection
  `rollback` returns the original state.
* Operations that raise a Python or PostgreSQL exception return an error of
  type `PyErr`; reads that cannot raise are total functions.
-/

namespace TLE

/- `Gitgud(IntEnum)` status codes (user_db_conn.py:12-16). -/
namespace Gitgud

def GOTGUD : Int := 0

def GITGUD : Int := 1

def NOGUD : Int := 2

def FORCED_NOGUD : Int := 3

end Gitgud

/- `Duel(IntEnum)` status codes (user_db_conn.py:18-25). -/
namespace Duel

def PENDING : Int := 0

def DECLINED : Int := 1

def WITHDRAWN : Int := 2

def EXPIRED : Int := 3

def ONGOING : Int := 4

def COMPLETE : Int := 5

def INVALID : Int := 6

end Duel

/- `Winner(IntEnum)` codes (user_db_conn.py:27-30). -/
namespace Winner

def DRAW : Int := 0

def CHALLENGER : Int := 1

def CHALLENGEE : Int := 2

end Winner

/- `DuelType(IntEnum)` codes (user_db_conn.py:32-34). -/
namespace DuelType

def UNOFFICIAL : Int := 0

def OFFICIAL : Int := 1

end DuelType

/- `RatedVC(IntEnum)` codes (user_db_conn.py:35-37). -/
namespace RatedVC

def ONGOING : Int := 0

def FINISHED : Int := 1

end RatedVC

/-- A row of table `user_handle` (user_db_conn.py:80-87).  Schema:
`PRIMARY KEY (user_id, guild_id)` and a unique index on `(guild_id, handle)`
(user_db_conn.py:88-89). -/
structure UserHandleRow where
  user_id : Nat
  guild_id : Nat
  handle : String
  active : Int
deriving DecidableEq, Repr

/-- A row of table `duelist` (user_db_conn.py:108-113): `user_id` BIGINT
primary key, `rating` INTEGER not null. -/
structure DuelistRow where
  user_id : Int
  rating : Int
deriving DecidableEq, Repr

/-- A row of table `duel` (user_db_conn.py:114-129).  `id` is SERIAL;
`start_time`, `finish_time`, `problem_name`, `contest_id`, `p_index`,
`status`, `winner`, `type` are nullable. -/
structure DuelRow where
  id : Nat
  challenger : Int
  challengee : Int
  issue_time : Int
  start_time : Option Int
  finish_time : Option Int
  problem_name : Option String
  contest_id : Option Int
  p_index : Option String
  status : Option Int
  winner : Option Int
  type : Option Int
deriving DecidableEq, Repr

/-- A row of table `challenge` (user_db_conn.py:130-142).  `id` is SERIAL;
only `finish_time` is nullable among the fields used here. -/
structure ChallengeRow where
  id : Nat
  user_id : Nat
  issue_time : Int
  finish_time : Option Int
  problem_name : String
  contest_id : Int
  p_index : String
  rating_delta : Int
  status : Int
deriving DecidableEq, Repr

/-- A row of table `user_challenge` (user_db_conn.py:143-153): primary key
`user_id`; `active_challenge_id` and `issue_time` are nullable. -/
structure UserChallengeRow where
  user_id : Nat
  active_challenge_id : Option Nat
  issue_time : Option Int
  score : Int
  num_completed : Int
  num_skipped : Int
deriving DecidableEq, Repr

/-- A row of table `rated_vcs` (user_db_conn.py:188-197): `id` is SERIAL. -/
structure RatedVcRow where
  id : Nat
  contest_id : Int
  start_time : Int
  finish_time : Int
  status : Int
  guild_id : Nat
deriving DecidableEq, Repr

/-- A row of table `rated_vc_users` (user_db_conn.py:200-212): primary key
`(vc_id, user_id)`, foreign key `vc_id REFERENCES rated_vcs(id)`, `rating`
nullable. -/
structure RatedVcUserRow where
  vc_id : Nat
  user_id : Nat
  rating : Option Int
deriving DecidableEq, Repr

/-- A row of table `rated_vc_settings` (user_db_conn.py:214-219). -/
structure RatedVcSettingsRow where
  guild_id : Nat
  channel_id : Int
deriving DecidableEq, Repr

/-- The database state: the tables touched by the operations under study,
plus the SERIAL sequences for `duel.id` and `rated_vcs.id`.  PostgreSQL
sequences are non-transactional: they advance even when the surrounding
transaction rolls back. -/
structure DbState where
  user_handle : List UserHandleRow
  duelist : List DuelistRow
  duel : List DuelRow
  challenge : List ChallengeRow
  user_challenge : List UserChallengeRow
  rated_vcs : List RatedVcRow
  rated_vc_users : List RatedVcUserRow
  rated_vc_settings : List RatedVcSettingsRow
  duel_seq : Nat
  rated_vcs_seq : Nat
deriving DecidableEq, Repr

/-- Exceptions that the studied operations can raise.
`uniqueConstraintFailed` is TLE's own `UniqueConstraintFailed` class
(user_db_conn.py:53-54); the others stand for the Python / psycopg2
exception classes named in the constructor. -/
inductive PyErr where
  /-- `AttributeError`: attribute access on `None` (psycopg2's
  `cursor.execute` returns `None`, unlike sqlite3's, so the chained
  `cur.execute(...).fetchone()` idiom raises). -/
  | pyAttrError
  /-- `TypeError`: subscripting `None` (`cur.fetchone()[0]` with no row). -/
  | pyTypeError
  /-- `psycopg2.errors.SyntaxError`: the server rejects the SQL text. -/
  | pgSqlError
  /-- `psycopg2.errors.GroupingError`: an ungrouped column appears next to an
  aggregate in the select list. -/
  | pgGroupingError
  /-- `psycopg2.errors.ForeignKeyViolation`. -/
  | pgFkViolation
  /-- `psycopg2.errors.UniqueViolation`. -/
  | pgUniqueViolation
  /-- TLE's `UniqueConstraintFailed` (user_db_conn.py:53-54). -/
  | uniqueConstraintFailed
deriving DecidableEq, Repr

/-- The guard `WHERE id = %s AND status = {st}` used by the duel state
transitions (`cancel_duel`, `invalidate_duel`, `complete_duel`). -/
def byIdAndStatus (duelid : Nat) (st : Int) (r : DuelRow) : Bool :=
  decide (r.id = duelid ∧ r.status = some st)

/-- `UserDbConn.update_duel_rating` (user_db_conn.py:754-762):
`UPDATE duelist SET rating = rating + %s WHERE user_id = %s;` followed by an
unconditional `self.conn.commit()`.  Returns `cur.rowcount` — 0 when no
duelist row with that user id exists, in which case nothing changes. -/
def update_duel_rating (s : DbState) (userid : Int) (delta : Int) : DbState × Nat :=
  ({ s with duelist := s.duelist.map fun q =>
      if (decide (q.user_id = userid)) then { q with rating := q.rating + delta } else q },
   s.duelist.countP fun q => decide (q.user_id = userid))

/-- `UserDbConn.complete_duel` (user_db_conn.py:736-752):
`UPDATE duel SET status = 5, finish_time = %s, winner = %s WHERE id = %s AND
status = 4;`.  If the rowcount is not 1 the transaction is rolled back and 0
is returned.  Otherwise, when `dtype == DuelType.OFFICIAL`, it calls
`update_duel_rating(winner_id, +delta)` and `update_duel_rating(loser_id,
-delta)`; their rowcounts are not inspected (and each of those calls issues
its own `commit`, the first of which already publishes the status flip).
Finally returns 1. -/
def complete_duel (s : DbState) (duelid : Nat) (winner : Int) (finish_time : Int)
    (winner_id : Int) (loser_id : Int) (delta : Int) (dtype : Int) : DbState × Nat :=
  let rc := s.duel.countP (byIdAndStatus duelid Duel.ONGOING)
  if rc ≠ 1 then (s, 0)
  else
    let s1 : DbState := { s with duel := s.duel.map fun r =>
      if (byIdAndStatus duelid Duel.ONGOING r) then
        { r with status := some Duel.COMPLETE, finish_time := some finish_time,
                 winner := some winner }
      else r }
    let s2 : DbState :=
      if dtype = DuelType.OFFICIAL then
        (update_duel_rating (update_duel_rating s1 winner_id delta).1 loser_id (-delta)).1
      else s1
    (s2, 1)

/-- `UserDbConn.cancel_duel` (user_db_conn.py:696-707):
`UPDATE duel SET status = %s WHERE id = %s AND status = 0;`; rolls back and
returns 0 unless the rowcount is exactly 1. -/
def cancel_duel (s : DbState) (duelid : Nat) (status : Int) : DbState × Nat :=
  let rc := s.duel.countP (byIdAndStatus duelid Duel.PENDING)
  if rc ≠ 1 then (s, 0)
  else
    ({ s with duel := s.duel.map fun r =>
        if (byIdAndStatus duelid Duel.PENDING r) then { r with status := some status } else r },
     rc)

/-- `UserDbConn.start_duel` (user_db_conn.py:722-734).  The query text is

    UPDATE duel SET start_time = %s, status = 4;
    WHERE id = %s AND status = 0;

— note the statement terminator after `status = 4`.  psycopg2 interpolates
the parameters client-side and sends the whole string; PostgreSQL parses a
multi-statement string completely before executing any part of it, and the
second statement, which begins with `WHERE`, is a syntax error.  Every call
therefore raises `psycopg2.errors.SyntaxError` and no row is ever updated. -/
def start_duel (s : DbState) (_duelid : Nat) (_start_time : Int) :
    DbState × Except PyErr Nat :=
  (s, .error .pgSqlError)

/-- `UserDbConn.check_duel_withdraw` (user_db_conn.py:659-666).  After
`cur.execute(query, (challenger,))`, the method returns
`cur.execute(query, (challenger,)).fetchone()`.  psycopg2's
`cursor.execute` returns `None` (the sqlite3 chaining idiom does not carry
over), so the `.fetchone()` attribute access raises `AttributeError` on
every call — whether or not a PENDING duel for the challenger exists.  The
queries are pure SELECTs, so the state is untouched. -/
def check_duel_withdraw (_s : DbState) (_challenger : Int) :
    Except PyErr (Option (Nat × Int)) :=
  .error .pyAttrError

/-- `UserDbConn.get_duel_rating` (user_db_conn.py:856-862):
`SELECT rating FROM duelist WHERE user_id = %s;` then
`return cur.fetchone()[0]`.  When no duelist row exists, `fetchone()` is
`None` and the subscript raises `TypeError`. -/
def get_duel_rating (s : DbState) (userid : Int) : Except PyErr Int :=
  match (s.duelist.filter fun q => decide (q.user_id = userid)).head? with
  | some q => .ok q.rating
  | none => .error .pyTypeError

/-- `UserDbConn.get_rated_vc_channel` (user_db_conn.py:1078-1085).  Line 1083
is `cur.execute(query, (guild_id,)).fetchone()`: psycopg2's `execute`
returns `None`, so the chained `.fetchone()` raises `AttributeError` on
every call, before the following `cur.fetchone()` line is reached. -/
def get_rated_vc_channel (_s : DbState) (_guild_id : Nat) :
    Except PyErr (Option Int) :=
  .error .pyAttrError

/-- `UserDbConn.create_duel` (user_db_conn.py:686-694): inserts one row with
`status = 0` (PENDING), `start_time`, `finish_time` and `winner` NULL, the
id drawn from the `duel` SERIAL sequence, commits, and returns
`cur.lastrowid`.  psycopg2's `lastrowid` is the PostgreSQL OID of the
inserted row; none of the tables is created `WITH OIDS`, so it is always
0 — not the id of the new row. -/
def create_duel (s : DbState) (challenger : Int) (challengee : Int)
    (issue_time : Int) (prob_name : String) (prob_contestId : Int)
    (prob_index : String) (dtype : Int) : DbState × Nat :=
  let row : DuelRow :=
    { id := s.duel_seq, challenger := challenger, challengee := challengee,
      issue_time := issue_time, start_time := none, finish_time := none,
      problem_name := some prob_name, contest_id := some prob_contestId,
      p_index := some prob_index, status := some Duel.PENDING, winner := none,
      type := some dtype }
  ({ s with duel := s.duel ++ [row], duel_seq := s.duel_seq + 1 }, 0)

/-- The participant inserts inside `create_rated_vc`
(user_db_conn.py:992-996): `INSERT INTO rated_vc_users (vc_id, user_id)
VALUES (%s, CAST(%s AS TEXT));` for each listed user, with `rating` NULL.
The table declares `PRIMARY KEY (vc_id, user_id)` and
`FOREIGN KEY (vc_id) REFERENCES rated_vcs(id)`; an insert violating either
constraint raises, aborting the enclosing transaction. -/
def rated_vc_users_insert (s : DbState) (vcid : Nat) :
    List Nat → Except PyErr DbState
  | [] => .ok s
  | u :: rest =>
    if s.rated_vcs.any fun w => decide (w.id = vcid) then
      if s.rated_vc_users.any fun r => decide (r.vc_id = vcid ∧ r.user_id = u) then
        .error .pgUniqueViolation
      else
        rated_vc_users_insert
          { s with rated_vc_users :=
              s.rated_vc_users ++ [{ vc_id := vcid, user_id := u, rating := none }] }
          vcid rest
    else .error .pgFkViolation

/-- `UserDbConn.create_rated_vc` (user_db_conn.py:981-997): inside one
`with self.conn:` transaction, inserts the VC row with `status = 0`
(ONGOING) and id drawn from the `rated_vcs` SERIAL sequence (which starts at
1 and never rolls back), reads `id = cur.lastrowid` — the OID, i.e. 0, not
the new id — and inserts one participation row per user with `vc_id = id`.
Since no `rated_vcs` row ever has id 0, the first participant insert raises
a foreign-key violation and the transaction (including the VC row) is
rolled back; with an empty roster the call commits and returns 0. -/
def create_rated_vc (s : DbState) (contest_id : Int) (start_time : Int)
    (finish_time : Int) (guild_id : Nat) (user_ids : List Nat) :
    DbState × Except PyErr Nat :=
  let newRow : RatedVcRow :=
    { id := s.rated_vcs_seq, contest_id := contest_id, start_time := start_time,
      finish_time := finish_time, status := RatedVC.ONGOING, guild_id := guild_id }
  let s1 : DbState := { s with rated_vcs := s.rated_vcs ++ [newRow],
                               rated_vcs_seq := s.rated_vcs_seq + 1 }
  let vcid : Nat := 0
  match rated_vc_users_insert s1 vcid user_ids with
  | .ok s2 => (s2, .ok vcid)
  | .error e => ({ s with rated_vcs_seq := s.rated_vcs_seq + 1 }, .error e)

/-- `UserDbConn.get_num_duel_draws` (user_db_conn.py:823-829):
`SELECT COUNT(*) FROM duel WHERE (challengee = %s OR challenger = %s) AND
winner = 0;` — note that, unlike the other duel counters, there is no
`status = 5` (COMPLETE) conjunct. -/
def get_num_duel_draws (s : DbState) (userid : Int) : Nat :=
  s.duel.countP fun r =>
    decide ((r.challengee = userid ∨ r.challenger = userid) ∧
            r.winner = some Winner.DRAW)

/-- `UserDbConn.get_num_duel_losses` (user_db_conn.py:831-838):
`SELECT COUNT(*) FROM duel WHERE ((challengee = %s AND winner = 1) OR
(challenger = %s AND winner = 2)) AND status = 5;`. -/
def get_num_duel_losses (s : DbState) (userid : Int) : Nat :=
  s.duel.countP fun r =>
    decide (((r.challengee = userid ∧ r.winner = some Winner.CHALLENGER) ∨
             (r.challenger = userid ∧ r.winner = some Winner.CHALLENGEE)) ∧
            r.status = some Duel.COMPLETE)

/-- Follows the spec's words (for comparison with `get_num_duel_draws`):
"count wins/losses/draws/declines for a user by scanning COMPLETE rows
filtered by role and winner value" — scan the COMPLETE rows, keep those
involving the user whose winner is DRAW, and count them. -/
def spec_num_complete_draws (s : DbState) (userid : Int) : Nat :=
  ((s.duel.filter fun r => decide (r.status = some Duel.COMPLETE)).filter fun r =>
      decide ((r.challengee = userid ∨ r.challenger = userid) ∧
              r.winner = some Winner.DRAW)).length

/-- Follows the spec's words (for comparison with `get_num_duel_losses`):
scan the COMPLETE rows and count those where the user is on the losing
side. -/
def spec_num_complete_losses (s : DbState) (userid : Int) : Nat :=
  ((s.duel.filter fun r => decide (r.status = some Duel.COMPLETE)).filter fun r =>
      decide ((r.challengee = userid ∧ r.winner = some Winner.CHALLENGER) ∨
              (r.challenger = userid ∧ r.winner = some Winner.CHALLENGEE))).length

/-- `UserDbConn.get_vc_rating` (user_db_conn.py:1045-1055).  The query is
`SELECT MAX(vc_id) AS latest_vc_id, rating FROM rated_vc_users WHERE
user_id = CAST(%s AS TEXT) AND rating IS NOT NULL;`.  Under PostgreSQL the
bare column `rating` next to the aggregate `MAX(vc_id)` must appear in a
GROUP BY clause; the server rejects the query at analysis time (sqlite's
bare-column-with-MAX special case does not exist), so every call raises
`psycopg2.errors.GroupingError` regardless of the table contents. -/
def get_vc_rating (_s : DbState) (_user_id : Nat) (_default_if_not_exist : Bool) :
    Except PyErr (Option Int) :=
  .error .pgGroupingError

/-- The `(vc_id, user_id)` primary-key test used by `update_vc_rating`'s
`ON CONFLICT (vc_id, user_id)` clause. -/
def vc_user_key (vc_id : Nat) (user_id : Nat) (r : RatedVcUserRow) : Bool :=
  decide (r.vc_id = vc_id ∧ r.user_id = user_id)

/-- `UserDbConn.update_vc_rating` (user_db_conn.py:1033-1043):
`INSERT INTO rated_vc_users (vc_id, user_id, rating) VALUES (%s, CAST(%s AS
TEXT), %s) ON CONFLICT (vc_id, user_id) DO UPDATE SET rating =
EXCLUDED.rating;` inside `with self.conn:`.  On a primary-key conflict the
existing row's rating is overwritten in place; otherwise a new row is
inserted (subject to the `vc_id → rated_vcs.id` foreign key). -/
def update_vc_rating (s : DbState) (vc_id : Nat) (user_id : Nat) (rating : Int) :
    DbState × Except PyErr Unit :=
  if s.rated_vc_users.any (vc_user_key vc_id user_id) then
    ({ s with rated_vc_users := s.rated_vc_users.map fun r =>
        if (vc_user_key vc_id user_id r) then { r with rating := some rating } else r },
     .ok ())
  else if s.rated_vcs.any fun w => decide (w.id = vc_id) then
    ({ s with rated_vc_users :=
        s.rated_vc_users ++ [{ vc_id := vc_id, user_id := user_id, rating := some rating }] },
     .ok ())
  else (s, .error .pgFkViolation)

/-- The guard `WHERE id = %s AND status = 1` (GITGUD) on the `challenge`
table, used by `complete_challenge` and `skip_challenge`. -/
def challenge_gitgud_guard (challenge_id : Nat) (r : ChallengeRow) : Bool :=
  decide (r.id = challenge_id ∧ r.status = Gitgud.GITGUD)

/-- The guard `WHERE user_id = CAST(%s AS TEXT) AND active_challenge_id = %s`
on the `user_challenge` table, used by `complete_challenge` and
`skip_challenge`. -/
def user_challenge_slot_guard (user_id : Nat) (challenge_id : Nat)
    (w : UserChallengeRow) : Bool :=
  decide (w.user_id = user_id ∧ w.active_challenge_id = some challenge_id)

/-- `UserDbConn.complete_challenge` (user_db_conn.py:375-397): first
`UPDATE challenge SET finish_time = %s, status = 0 WHERE id = %s AND status
= 1;`, rolling back and returning 0 unless the rowcount is 1; then `UPDATE
user_challenge SET score = score + %s, num_completed = num_completed + 1,
active_challenge_id = NULL, issue_time = NULL WHERE user_id = ... AND
active_challenge_id = %s;`, again rolling back (undoing the first update —
nothing was committed in between) and returning 0 unless the rowcount is 1;
finally commits and returns 1. -/
def complete_challenge (s : DbState) (user_id : Nat) (challenge_id : Nat)
    (finish_time : Int) (delta : Int) : DbState × Nat :=
  let rc1 := s.challenge.countP (challenge_gitgud_guard challenge_id)
  if rc1 ≠ 1 then (s, 0)
  else
    let s1 : DbState := { s with challenge := s.challenge.map fun r =>
        if (challenge_gitgud_guard challenge_id r) then
          { r with finish_time := some finish_time, status := Gitgud.GOTGUD }
        else r }
    let rc2 := s1.user_challenge.countP (user_challenge_slot_guard user_id challenge_id)
    if rc2 ≠ 1 then (s, 0)
    else
      ({ s1 with user_challenge := s1.user_challenge.map fun w =>
          if (user_challenge_slot_guard user_id challenge_id w) then
            { w with score := w.score + delta, num_completed := w.num_completed + 1,
                     active_challenge_id := none, issue_time := none }
          else w },
       1)

/-- `UserDbConn.skip_challenge` (user_db_conn.py:399-419): first `UPDATE
user_challenge SET active_challenge_id = NULL, issue_time = NULL WHERE
user_id = ... AND active_challenge_id = %s;` (note: `num_skipped`, `score`
and `num_completed` are not touched), then `UPDATE challenge SET status =
%s WHERE id = %s AND status = 1;`; each step rolls back everything and
returns 0 unless its rowcount is 1, otherwise the call commits and
returns 1. -/
def skip_challenge (s : DbState) (user_id : Nat) (challenge_id : Nat)
    (status : Int) : DbState × Nat :=
  let rc1 := s.user_challenge.countP (user_challenge_slot_guard user_id challenge_id)
  if rc1 ≠ 1 then (s, 0)
  else
    let s1 : DbState := { s with user_challenge := s.user_challenge.map fun w =>
        if (user_challenge_slot_guard user_id challenge_id w) then
          { w with active_challenge_id := none, issue_time := none }
        else w }
    let rc2 := s1.challenge.countP (challenge_gitgud_guard challenge_id)
    if rc2 ≠ 1 then (s, 0)
    else
      ({ s1 with challenge := s1.challenge.map fun r =>
          if (challenge_gitgud_guard challenge_id r) then { r with status := status }
          else r },
       1)

/-- The `(guild_id, handle)` test of `set_handle`'s pre-check SELECT
(user_db_conn.py:457-459). -/
def handle_key (guild_id : Nat) (handle : String) (r : UserHandleRow) : Bool :=
  decide (r.guild_id = guild_id ∧ r.handle = handle)

/-- The `(user_id, guild_id)` primary-key test used by `set_handle`'s
`ON CONFLICT (user_id, guild_id)` clause. -/
def user_guild_key (user_id : Nat) (guild_id : Nat) (r : UserHandleRow) : Bool :=
  decide (r.user_id = user_id ∧ r.guild_id = guild_id)

/-- The upsert statement of `UserDbConn.set_handle` (user_db_conn.py:466-476):
`INSERT INTO user_handle (user_id, guild_id, handle, active) VALUES (...,
..., %s, 1) ON CONFLICT (user_id, guild_id) DO UPDATE SET handle =
EXCLUDED.handle, active = EXCLUDED.active;` — one row inserted or updated,
rowcount 1. -/
def set_handle_upsert (s : DbState) (user_id : Nat) (guild_id : Nat)
    (handle : String) : DbState × Except PyErr Nat :=
  if s.user_handle.any (user_guild_key user_id guild_id) then
    ({ s with user_handle := s.user_handle.map fun r =>
        if (user_guild_key user_id guild_id r) then
          { r with handle := handle, active := 1 }
        else r },
     .ok 1)
  else
    ({ s with user_handle := s.user_handle ++
        [{ user_id := user_id, guild_id := guild_id, handle := handle, active := 1 }] },
     .ok 1)

/-- `UserDbConn.set_handle` (user_db_conn.py:456-476): first
`SELECT user_id FROM user_handle WHERE guild_id = ... AND handle = %s;`
(`fetchone`); if a row exists and `int(existing[0]) != user_id`, raises
`UniqueConstraintFailed` before any write — the table is unchanged.
Otherwise runs the upsert (`set_handle_upsert`) and returns its rowcount. -/
def set_handle (s : DbState) (user_id : Nat) (guild_id : Nat) (handle : String) :
    DbState × Except PyErr Nat :=
  match (s.user_handle.filter (handle_key guild_id handle)).head? with
  | some row =>
    if row.user_id ≠ user_id then (s, .error .uniqueConstraintFailed)
    else set_handle_upsert s user_id guild_id handle
  | none => set_handle_upsert s user_id guild_id handle

/-- `UserDbConn.get_handle` (user_db_conn.py:487-494): `SELECT handle FROM
user_handle WHERE user_id = ... AND guild_id = ...;`, `fetchone`, returning
`res[0]` or `None`. -/
def get_handle (s : DbState) (user_id : Nat) (guild_id : Nat) : Option String :=
  ((s.user_handle.filter (user_guild_key user_id guild_id)).head?).map fun r => r.handle

/-- SQL `MAX` over a list of `vc_id` values: `NULL` (`none`) on the empty
set, the maximum otherwise. -/
def sqlMaxNat : List Nat → Option Nat
  | [] => none
  | x :: xs =>
    match sqlMaxNat xs with
    | none => some x
    | some m => some (max x m)

/-- The guard `WHERE user_id = ... AND vc_id = %s` of the DELETE inside
`remove_last_ratedvc_participation`, with the second comparand the value of
`SELECT MAX(vc_id) ...` — possibly SQL NULL, which no row compares equal
to. -/
def remove_guard (user_id : Nat) (m : Option Nat) (r : RatedVcUserRow) : Bool :=
  decide (r.user_id = user_id ∧ some r.vc_id = m)

/-- `UserDbConn.remove_last_ratedvc_participation` (user_db_conn.py:1087-1098):
`SELECT MAX(vc_id) AS vc_id FROM rated_vc_users WHERE user_id = ...;` (an
aggregate with no GROUP BY always yields exactly one row, so `.vc_id` never
raises; it is SQL NULL when the user has no rows), then `DELETE FROM
rated_vc_users WHERE user_id = ... AND vc_id = %s;`, returning the DELETE's
rowcount. -/
def remove_last_ratedvc_participation (s : DbState) (user_id : Nat) :
    DbState × Nat :=
  let m : Option Nat :=
    sqlMaxNat ((s.rated_vc_users.filter fun r => decide (r.user_id = user_id)).map
      fun r => r.vc_id)
  ({ s with rated_vc_users := s.rated_vc_users.filter fun r => !remove_guard user_id m r },
   s.rated_vc_users.countP (remove_guard user_id m))

/-- The empty database: all tables empty, both SERIAL sequences at their
initial value 1 (`setval(..., MAX(id) + 1)` on an empty table passes NULL to
the strict `setval` and leaves the sequence untouched). -/
def emptyDb : DbState :=
  { user_handle := [], duelist := [], duel := [], challenge := [],
    user_challenge := [], rated_vcs := [], rated_vc_users := [],
    rated_vc_settings := [], duel_seq := 1, rated_vcs_seq := 1 }

/-- One official ONGOING duel (id 1, challenger 10 vs challengee 20); user 10
is a registered duelist at rating 1500, user 20 is not registered. -/
def dbMissingLoser : DbState :=
  { emptyDb with
    duel := [{ id := 1, challenger := 10, challengee := 20, issue_time := 0,
               start_time := some 1, finish_time := none,
               problem_name := some "p", contest_id := some 2,
               p_index := some "A", status := some Duel.ONGOING,
               winner := none, type := some DuelType.OFFICIAL }],
    duelist := [{ user_id := 10, rating := 1500 }],
    duel_seq := 2 }

/-- One PENDING duel (id 1, challenger 5 vs challengee 6), and a
`rated_vc_settings` row for guild 7. -/
def dbPendingDuel : DbState :=
  { emptyDb with
    duel := [{ id := 1, challenger := 5, challengee := 6, issue_time := 0,
               start_time := none, finish_time := none,
               problem_name := some "p", contest_id := some 2,
               p_index := some "A", status := some Duel.PENDING,
               winner := none, type := some DuelType.OFFICIAL }],
    rated_vc_settings := [{ guild_id := 7, channel_id := 99 }],
    duel_seq := 2 }

/-- A duel table where a row involving user 5 carries `winner = DRAW` while
its status is ONGOING, not COMPLETE. -/
def dbOngoingDraw : DbState :=
  { emptyDb with
    duel := [{ id := 1, challenger := 5, challengee := 6, issue_time := 0,
               start_time := some 1, finish_time := none,
               problem_name := some "p", contest_id := some 2,
               p_index := some "A", status := some Duel.ONGOING,
               winner := some Winner.DRAW, type := some DuelType.OFFICIAL }],
    duel_seq := 2 }

/-- One COMPLETE drawn duel and one DECLINED duel, both involving user 5. -/
def dbCompleteDraw : DbState :=
  { emptyDb with
    duel := [{ id := 1, challenger := 5, challengee := 6, issue_time := 0,
               start_time := some 1, finish_time := some 2,
               problem_name := some "p", contest_id := some 2,
               p_index := some "A", status := some Duel.COMPLETE,
               winner := some Winner.DRAW, type := some DuelType.OFFICIAL },
             { id := 2, challenger := 6, challengee := 5, issue_time := 3,
               start_time := none, finish_time := none,
               problem_name := some "q", contest_id := some 3,
               p_index := some "B", status := some Duel.DECLINED,
               winner := none, type := some DuelType.OFFICIAL }],
    duel_seq := 3 }

/-- User 4 took part in rated VCs 3 and 7 with recorded ratings 1600 and
1450 — the spec's own worked example for `get_vc_rating`. -/
def dbVcHistory : DbState :=
  { emptyDb with
    rated_vcs := [{ id := 3, contest_id := 100, start_time := 0,
                    finish_time := 10, status := RatedVC.FINISHED, guild_id := 7 },
                  { id := 7, contest_id := 200, start_time := 20,
                    finish_time := 30, status := RatedVC.FINISHED, guild_id := 7 }],
    rated_vc_users := [{ vc_id := 3, user_id := 4, rating := some 1600 },
                       { vc_id := 7, user_id := 4, rating := some 1450 }],
    rated_vcs_seq := 8 }

/-- A single rated VC (id 3) with an empty participation table. -/
def dbVcNoUsers : DbState :=
  { emptyDb with
    rated_vcs := [{ id := 3, contest_id := 100, start_time := 0,
                    finish_time := 10, status := RatedVC.ONGOING, guild_id := 7 }],
    rated_vcs_seq := 4 }

/-- User 7 has challenge 1 active (status GITGUD) and a `user_challenge` row
with all counters at zero. -/
def dbActiveChallenge : DbState :=
  { emptyDb with
    challenge := [{ id := 1, user_id := 7, issue_time := 5, finish_time := none,
                    problem_name := "p", contest_id := 2, p_index := "A",
                    rating_delta := 50, status := Gitgud.GITGUD }],
    user_challenge := [{ user_id := 7, active_challenge_id := some 1,
                         issue_time := some 5, score := 0, num_completed := 0,
                         num_skipped := 0 }] }

/-- Guild 7 has the handle "alice" bound (active) to user 10. -/
def dbAliceHandle : DbState :=
  { emptyDb with
    user_handle := [{ user_id := 10, guild_id := 7, handle := "alice", active := 1 }] }

/-- User 4 has two participation rows: vc 3 with a recorded rating and vc 7
with the rating still NULL. -/
def dbTwoParticipations : DbState :=
  { emptyDb with
    rated_vcs := [{ id := 3, contest_id := 100, start_time := 0,
                    finish_time := 10, status := RatedVC.FINISHED, guild_id := 7 },
                  { id := 7, contest_id := 200, start_time := 20,
                    finish_time := 30, status := RatedVC.ONGOING, guild_id := 7 }],
    rated_vc_users := [{ vc_id := 3, user_id := 4, rating := some 1600 },
                       { vc_id := 7, user_id := 4, rating := none }],
    rated_vcs_seq := 8 }

/-- A list whose elements satisfying `p` are pairwise exclusive (at most one
position matches) and that contains a match `x` has `countP p = 1`. -/
theorem countP_eq_one_of_key {α : Type} {l : List α} {p : α → Bool} {x : α}
    (hp : l.Pairwise fun a b => ¬(p a = true ∧ p b = true))
    (hx : x ∈ l) (hpx : p x = true) : l.countP p = 1 := by
  induction l with
  | nil => cases hx
  | cons z zs ih =>
    rcases List.pairwise_cons.mp hp with ⟨hz, hzs⟩
    rcases List.mem_cons.mp hx with rfl | hx'
    · have h0 : zs.countP p = 0 :=
        List.countP_eq_zero.mpr fun a ha hpa => hz a ha ⟨hpx, hpa⟩
      rw [List.countP_cons, h0]
      simp [hpx]
    · have hpz : ¬p z = true := fun hpz => hz x hx' ⟨hpz, hpx⟩
      rw [List.countP_cons]
      simp only [hpz]
      simpa using ih hzs hx'

/-- In a list as above, any member satisfying `p` is the match `x`. -/
theorem all_eq_of_key {α : Type} {l : List α} {p : α → Bool} {x : α}
    (hp : l.Pairwise fun a b => ¬(p a = true ∧ p b = true))
    (hx : x ∈ l) (hpx : p x = true) : ∀ y ∈ l, p y = true → y = x := by
  induction l with
  | nil => intro y hy; cases hy
  | cons z zs ih =>
    rcases List.pairwise_cons.mp hp with ⟨hz, hzs⟩
    intro y hy hpy
    rcases List.mem_cons.mp hy with rfl | hy'
    · rcases List.mem_cons.mp hx with rfl | hx'
      · rfl
      · exact absurd ⟨hpy, hpx⟩ (hz x hx')
    · rcases List.mem_cons.mp hx with rfl | hx'
      · exact absurd ⟨hpx, hpy⟩ (hz y hy')
      · exact ih hzs hx' y hy' hpy

/-- Filtering such a list keeps exactly the match. -/
theorem filter_eq_singleton_of_key {α : Type} {l : List α} {p : α → Bool} {x : α}
    (hp : l.Pairwise fun a b => ¬(p a = true ∧ p b = true))
    (hx : x ∈ l) (hpx : p x = true) : l.filter p = [x] := by
  induction l with
  | nil => cases hx
  | cons z zs ih =>
    rcases List.pairwise_cons.mp hp with ⟨hz, hzs⟩
    rcases List.mem_cons.mp hx with rfl | hx'
    · have h0 : zs.filter p = [] :=
        List.filter_eq_nil_iff.mpr fun a ha hpa => hz a ha ⟨hpx, hpa⟩
      rw [List.filter_cons_of_pos hpx, h0]
    · have hpz : ¬p z = true := fun hpz => hz x hx' ⟨hpz, hpx⟩
      rw [List.filter_cons_of_neg (by simpa using hpz)]
      exact ih hzs hx'

/-- A guarded update (`map` that rewrites the rows matching `p`) turns the
filter on `p` into the singleton of the rewritten match, provided the
rewrite preserves `p`. -/
theorem guardedMap_filter_pos {α : Type} {l : List α} {p : α → Bool} {g : α → α}
    {x : α}
    (hp : l.Pairwise fun a b => ¬(p a = true ∧ p b = true))
    (hx : x ∈ l) (hpx : p x = true) (hgx : p (g x) = true) :
    (l.map fun r => if p r then g r else r).filter p = [g x] := by
  induction l with
  | nil => cases hx
  | cons z zs ih =>
    rcases List.pairwise_cons.mp hp with ⟨hz, hzs⟩
    rcases List.mem_cons.mp hx with rfl | hx'
    · have h0 : (zs.map fun r => if p r then g r else r).filter p = [] := by
        rw [List.filter_eq_nil_iff]
        intro a ha
        rcases List.mem_map.mp ha with ⟨b, hb, rfl⟩
        have hpb : ¬p b = true := fun hpb => hz b hb ⟨hpx, hpb⟩
        rw [if_neg hpb]
        exact hpb
      rw [List.map_cons, if_pos hpx, List.filter_cons_of_pos hgx, h0]
    · have hpz : ¬p z = true := fun hpz => hz x hx' ⟨hpz, hpx⟩
      rw [List.map_cons, if_neg hpz, List.filter_cons_of_neg (by simpa using hpz)]
      exact ih hzs hx'

/-- A guarded update does not disturb the rows not matching `p`, provided
the rewrite preserves `p` on the rows it touches. -/
theorem guardedMap_filter_neg {α : Type} (l : List α) (p : α → Bool) (g : α → α)
    (hkeep : ∀ r ∈ l, p r = true → p (g r) = true) :
    (l.map fun r => if p r then g r else r).filter (fun r => !p r) =
      l.filter (fun r => !p r) := by
  induction l with
  | nil => rfl
  | cons z zs ih =>
    have ih' := ih fun r hr => hkeep r (List.mem_cons_of_mem _ hr)
    cases hb : p z with
    | true =>
      have hgz : p (g z) = true := hkeep z (List.mem_cons_self _ _) hb
      rw [List.map_cons, if_pos hb, List.filter_cons_of_neg (by simp [hgz]),
          List.filter_cons_of_neg (by simp [hb])]
      exact ih'
    | false =>
      rw [List.map_cons, if_neg (by simp [hb]), List.filter_cons_of_pos (by simp [hb]),
          List.filter_cons_of_pos (by simp [hb])]
      rw [ih']

/-- `sqlMaxNat` is `none` only on the empty list. -/
theorem sqlMaxNat_eq_none {l : List Nat} (h : sqlMaxNat l = none) : l = [] := by
  cases l with
  | nil => rfl
  | cons z zs =>
    exfalso
    unfold sqlMaxNat at h
    cases hz : sqlMaxNat zs with
    | none => rw [hz] at h; cases h
    | some m => rw [hz] at h; cases h

/-- The value computed by `sqlMaxNat` is an element of the list. -/
theorem sqlMaxNat_mem {l : List Nat} {m : Nat} (h : sqlMaxNat l = some m) :
    m ∈ l := by
  induction l generalizing m with
  | nil => cases h
  | cons z zs ih =>
    unfold sqlMaxNat at h
    cases hz : sqlMaxNat zs with
    | none =>
      rw [hz] at h
      cases h
      exact List.mem_cons_self _ _
    | some k =>
      rw [hz] at h
      cases h
      rcases Nat.le_total z k with hle | hle
      · rw [Nat.max_eq_right hle]
        exact List.mem_cons_of_mem _ (ih hz)
      · rw [Nat.max_eq_left hle]
        exact List.mem_cons_self _ _

/-- The value computed by `sqlMaxNat` bounds every element of the list. -/
theorem sqlMaxNat_ub {l : List Nat} {m : Nat} (h : sqlMaxNat l = some m) :
    ∀ x ∈ l, x ≤ m := by
  induction l generalizing m with
  | nil => intro x hx; cases hx
  | cons z zs ih =>
    unfold sqlMaxNat at h
    intro x hx
    cases hz : sqlMaxNat zs with
    | none =>
      rw [hz] at h
      cases h
      have : zs = [] := sqlMaxNat_eq_none hz
      subst this
      rcases List.mem_cons.mp hx with rfl | hx'
      · exact Nat.le_refl _
      · cases hx'
    | some k =>
      rw [hz] at h
      cases h
      rcases List.mem_cons.mp hx with rfl | hx'
      · exact Nat.le_max_left _ _
      · exact Nat.le_trans (ih hz x hx') (Nat.le_max_right _ _)

/-- C1, counterexample: at `dbMissingLoser` (duel 1 ONGOING and OFFICIAL,
winner 10 registered, loser 20 not registered) `complete_duel` returns 1,
the duel is COMPLETE and the winner's rating became 1507 — yet the loser's
rating update affected 0 rows (`update_duel_rating` reports rowcount 0 and
no row for user 20 exists).  One of the three writes failed, but the other
two are visible, refuting the all-or-nothing part of the claim. -/
theorem complete_duel_partial_write :
    (complete_duel dbMissingLoser 1 Winner.CHALLENGER 9 10 20 7 DuelType.OFFICIAL).2 = 1
    ∧ ((complete_duel dbMissingLoser 1 Winner.CHALLENGER 9 10 20 7
          DuelType.OFFICIAL).1.duel.map fun r => r.status) = [some Duel.COMPLETE]
    ∧ (complete_duel dbMissingLoser 1 Winner.CHALLENGER 9 10 20 7
          DuelType.OFFICIAL).1.duelist = [{ user_id := 10, rating := 1507 }]
    ∧ (update_duel_rating dbMissingLoser 20 (-7)).2 = 0 := by
  decide

/-- C2: the claim describes `start_duel(d, t)` as a guarded
`PENDING → ONGOING` transition returning 1 on success and 0 (no change)
otherwise.  The code's UPDATE is terminated by a stray `;` before its WHERE
clause, so even with the PENDING duel 1 present the call raises a SQL
syntax error, changes nothing, and never returns 1 or 0. -/
theorem start_duel_always_raises :
    start_duel dbPendingDuel 1 50 = (dbPendingDuel, .error .pgSqlError)
    ∧ (dbPendingDuel.duel.map fun r => r.status) = [some Duel.PENDING] :=
  ⟨rfl, by decide⟩

/-- C3: all three reads named by the claim raise instead of returning an
absent result: `check_duel_withdraw` raises `AttributeError` even though a
PENDING duel for challenger 5 exists, `get_duel_rating` raises `TypeError`
for the unregistered user 10, and `get_rated_vc_channel` raises
`AttributeError` even though guild 7 has a settings row. -/
theorem pure_reads_raise :
    check_duel_withdraw dbPendingDuel 5 = .error .pyAttrError
    ∧ get_duel_rating dbPendingDuel 10 = .error .pyTypeError
    ∧ get_rated_vc_channel dbPendingDuel 7 = .error .pyAttrError
    ∧ (dbPendingDuel.duel.map fun r => (r.challenger, r.status)) =
        [(5, some Duel.PENDING)]
    ∧ dbPendingDuel.rated_vc_settings =
        [{ guild_id := 7, channel_id := 99 }] :=
  ⟨rfl, rfl, rfl, by decide, by decide⟩

/-- C4: on the empty database, `create_duel` does insert one PENDING row —
its id is 1, drawn from the sequence — but returns `lastrowid` = 0, not the
new row's id; and `create_rated_vc` with one listed participant raises a
foreign-key violation (the participation row is inserted with
`vc_id = lastrowid = 0`, which matches no `rated_vcs` row), rolls the VC row
back, and returns no id at all. -/
theorem create_ops_return_wrong_id :
    (create_duel emptyDb 10 20 0 "p" 2 "A" DuelType.OFFICIAL).2 = 0
    ∧ ((create_duel emptyDb 10 20 0 "p" 2 "A"
          DuelType.OFFICIAL).1.duel.map fun r => r.id) = [1]
    ∧ ((create_duel emptyDb 10 20 0 "p" 2 "A"
          DuelType.OFFICIAL).1.duel.map fun r => r.status) = [some Duel.PENDING]
    ∧ create_rated_vc emptyDb 100 0 10 7 [5] =
        ({ emptyDb with rated_vcs_seq := 2 }, .error .pgFkViolation) :=
  ⟨by decide, by decide, by decide, rfl⟩

/-- C5, counterexample: at `dbOngoingDraw` the single duel row involving
user 5 has `winner = DRAW` but status ONGOING; `get_num_duel_draws` counts
it (it filters on the winner only), while the number of COMPLETE duels of
user 5 whose winner is DRAW is 0 — the two differ, refuting the claim as
stated over every database state. -/
theorem draws_counts_non_complete :
    get_num_duel_draws dbOngoingDraw 5 = 1
    ∧ spec_num_complete_draws dbOngoingDraw 5 = 0 := by
  decide

/-- C6: at the spec's own example state (user 4 rated 1600 in vc 3 and 1450
in vc 7) the claim demands `get_vc_rating` return 1450; the code's query
puts the bare column `rating` next to `MAX(vc_id)` with no GROUP BY, which
PostgreSQL rejects, so the call raises a grouping error instead. -/
theorem get_vc_rating_always_raises :
    get_vc_rating dbVcHistory 4 true = .error .pgGroupingError
    ∧ get_vc_rating dbVcHistory 4 false = .error .pgGroupingError
    ∧ (dbVcHistory.rated_vc_users.map fun r => (r.vc_id, r.user_id, r.rating)) =
        [(3, 4, some 1600), (7, 4, some 1450)] :=
  ⟨rfl, rfl, by decide⟩

/-- C8, counterexample: at `dbActiveChallenge` (challenge 1 is GITGUD and is
user 7's active slot, `num_skipped = 0`) `skip_challenge` succeeds —
returns 1, the challenge's status becomes the supplied NOGUD and the slot is
cleared — yet `num_skipped` is still 0 afterwards: the code never updates
the user's skip counter, contrary to the claim. -/
theorem skip_challenge_keeps_skip_counter :
    (skip_challenge dbActiveChallenge 7 1 Gitgud.NOGUD).2 = 1
    ∧ ((skip_challenge dbActiveChallenge 7 1
          Gitgud.NOGUD).1.user_challenge.map fun w =>
            (w.active_challenge_id, w.num_skipped)) = [(none, 0)]
    ∧ (dbActiveChallenge.user_challenge.map fun w => w.num_skipped) = [0]
    ∧ ((skip_challenge dbActiveChallenge 7 1
          Gitgud.NOGUD).1.challenge.map fun r => r.status) = [Gitgud.NOGUD] := by
  decide
/-- Effect of one `update_duel_rating` map step on a single duelist row:
the user id is kept and the rating gains `d0` exactly when the row belongs
to `uid`. -/
theorem duelist_upd_point (b : DuelistRow) (uid d0 : Int) :
    (if (decide (b.user_id = uid)) then { b with rating := b.rating + d0 }
     else b).user_id = b.user_id
    ∧ (if (decide (b.user_id = uid)) then { b with rating := b.rating + d0 }
       else b).rating = b.rating + (if b.user_id = uid then d0 else 0) := by
  by_cases h : b.user_id = uid <;> simp [h]

/-- C1 (amended): `complete_duel` performs the guarded ONGOING → COMPLETE
transition — when an ONGOING row with id `d` exists it returns 1 and
rewrites exactly that row, recording winner and finish time; when no such
row exists it returns 0 and the state is untouched.  When the type is
OFFICIAL the two rating updates are applied independently and unchecked:
every duelist row keeps its user id and its rating changes by `+delta` if
it is the winner's row and by `-delta` if it is the loser's (so users
without a duelist row — the failing write — simply get nothing, while the
status flip and the other update remain visible); for unofficial duels the
duelist table is untouched. -/
theorem complete_duel_spec (s : DbState) (d : Nat) (w t wid lid delta dtype : Int)
    (hnd : s.duel.Pairwise fun a b => a.id ≠ b.id) :
    ((∀ r ∈ s.duel, ¬(r.id = d ∧ r.status = some Duel.ONGOING)) →
        complete_duel s d w t wid lid delta dtype = (s, 0))
    ∧ (∀ r0 ∈ s.duel, r0.id = d → r0.status = some Duel.ONGOING →
        (complete_duel s d w t wid lid delta dtype).2 = 1
        ∧ List.Forall₂ (fun r rr =>
            (r.id = d → rr = { r with
                               status := some Duel.COMPLETE,
                               finish_time := some t,
                               winner := some w })
            ∧ (r.id ≠ d → rr = r))
            s.duel (complete_duel s d w t wid lid delta dtype).1.duel
        ∧ (dtype = DuelType.OFFICIAL →
            List.Forall₂ (fun q qq => qq.user_id = q.user_id ∧
                qq.rating = q.rating + (if q.user_id = wid then delta else 0)
                  + (if q.user_id = lid then -delta else 0))
              s.duelist (complete_duel s d w t wid lid delta dtype).1.duelist)
        ∧ (dtype ≠ DuelType.OFFICIAL →
            (complete_duel s d w t wid lid delta dtype).1.duelist = s.duelist)) := by
  constructor
  · intro h
    have h0 : s.duel.countP (byIdAndStatus d Duel.ONGOING) = 0 := by
      rw [List.countP_eq_zero]
      intro r hr
      simp only [byIdAndStatus, decide_eq_true_eq]
      exact h r hr
    simp [complete_duel, h0]
  · intro r0 hr0 hid hst
    have hpx : byIdAndStatus d Duel.ONGOING r0 = true := by
      simp [byIdAndStatus, hid, hst]
    have hp : s.duel.Pairwise fun a b =>
        ¬(byIdAndStatus d Duel.ONGOING a = true ∧
          byIdAndStatus d Duel.ONGOING b = true) := by
      refine hnd.imp ?_
      intro a b hab hcon
      rcases hcon with ⟨ha, hb⟩
      simp only [byIdAndStatus, decide_eq_true_eq] at ha hb
      exact hab (ha.1.trans hb.1.symm)
    have rc1 : s.duel.countP (byIdAndStatus d Duel.ONGOING) = 1 :=
      countP_eq_one_of_key hp hr0 hpx
    have hidp : (fun r : DuelRow => decide (r.id = d)) r0 = true := by simp [hid]
    have hpid : s.duel.Pairwise fun a b =>
        ¬((fun r : DuelRow => decide (r.id = d)) a = true ∧
          (fun r : DuelRow => decide (r.id = d)) b = true) := by
      refine hnd.imp ?_
      intro a b hab hcon
      rcases hcon with ⟨ha, hb⟩
      simp only [decide_eq_true_eq] at ha hb
      exact hab (ha.trans hb.symm)
    have huniq : ∀ y ∈ s.duel, y.id = d → y = r0 := by
      intro y hy hyd
      exact all_eq_of_key hpid hr0 hidp y hy (by simp [hyd])
    refine ⟨?_, ?_, ?_, ?_⟩
    · simp [complete_duel, rc1]
    · have hduel : (complete_duel s d w t wid lid delta dtype).1.duel =
          s.duel.map fun r =>
            if (byIdAndStatus d Duel.ONGOING r) then
              { r with status := some Duel.COMPLETE, finish_time := some t,
                       winner := some w }
            else r := by
        by_cases hdt : dtype = DuelType.OFFICIAL <;>
          simp [complete_duel, rc1, hdt, update_duel_rating]
      rw [hduel, List.forall₂_map_right_iff, List.forall₂_same]
      intro r hr
      constructor
      · intro hrd
        have hr0' : r = r0 := huniq r hr hrd
        subst hr0'
        simp [hpx]
      · intro hrd
        have hf : byIdAndStatus d Duel.ONGOING r = false := by
          simp [byIdAndStatus, hrd]
        simp [hf]
    · intro hdt
      have hdl : (complete_duel s d w t wid lid delta dtype).1.duelist =
          (s.duelist.map fun q =>
            if (decide (q.user_id = wid)) then { q with rating := q.rating + delta }
            else q).map fun q =>
              if (decide (q.user_id = lid)) then { q with rating := q.rating + -delta }
              else q := by
        simp [complete_duel, rc1, hdt, update_duel_rating]
      rw [hdl, List.map_map, List.forall₂_map_right_iff, List.forall₂_same]
      intro q hq
      simp only [Function.comp]
      obtain ⟨hu1, hr1⟩ := duelist_upd_point q wid delta
      obtain ⟨hu2, hr2⟩ := duelist_upd_point
        (if (decide (q.user_id = wid)) then { q with rating := q.rating + delta }
         else q) lid (-delta)
      constructor
      · rw [hu2, hu1]
      · rw [hr2, hr1, hu1]
    · intro hdt
      simp [complete_duel, rc1, hdt]

/-- C1, witness for `complete_duel_spec` at the concrete state
`dbMissingLoser`. -/
theorem complete_duel_spec_witness :
    (dbMissingLoser.duel.Pairwise fun a b => a.id ≠ b.id)
    ∧ (complete_duel dbMissingLoser 1 Winner.CHALLENGER 9 10 20 7
         DuelType.OFFICIAL).2 = 1 :=
  ⟨by decide,
   ((complete_duel_spec dbMissingLoser 1 Winner.CHALLENGER 9 10 20 7
       DuelType.OFFICIAL (by decide)).2
     { id := 1, challenger := 10, challengee := 20, issue_time := 0,
       start_time := some 1, finish_time := none, problem_name := some "p",
       contest_id := some 2, p_index := some "A", status := some Duel.ONGOING,
       winner := none, type := some DuelType.OFFICIAL }
     (by decide) rfl rfl).1⟩

/-- C5 (amended): `get_num_duel_losses` counts exactly the COMPLETE rows in
which user `u` is on the losing side, as the spec describes; and
`get_num_duel_draws`, whose query omits the `status = COMPLETE` conjunct,
agrees with the spec's count of COMPLETE draws on every state in which a
`winner = DRAW` mark only occurs on COMPLETE rows. -/
theorem duel_counters_spec (s : DbState) (u : Int) :
    ((∀ r ∈ s.duel, r.winner = some Winner.DRAW → r.status = some Duel.COMPLETE) →
        get_num_duel_draws s u = spec_num_complete_draws s u)
    ∧ get_num_duel_losses s u = spec_num_complete_losses s u := by
  constructor
  · intro h
    unfold get_num_duel_draws spec_num_complete_draws
    rw [List.countP_eq_length_filter, List.filter_filter]
    apply congrArg List.length
    apply List.filter_congr
    intro r hr
    by_cases hP : (r.challengee = u ∨ r.challenger = u) ∧ r.winner = some Winner.DRAW
    · have hC : r.status = some Duel.COMPLETE := h r hr hP.2
      simp [hP, hC]
    · simp [hP]
  · unfold get_num_duel_losses spec_num_complete_losses
    rw [List.countP_eq_length_filter, List.filter_filter]
    apply congrArg List.length
    apply List.filter_congr
    intro r _hr
    by_cases hP : (r.challengee = u ∧ r.winner = some Winner.CHALLENGER) ∨
        (r.challenger = u ∧ r.winner = some Winner.CHALLENGEE)
    · by_cases hC : r.status = some Duel.COMPLETE <;> simp [hP, hC]
    · simp [hP]

/-- C5, witness for `duel_counters_spec` at `dbCompleteDraw` (one COMPLETE
draw and one DECLINED duel for user 5). -/
theorem duel_counters_spec_witness :
    (∀ r ∈ dbCompleteDraw.duel,
        r.winner = some Winner.DRAW → r.status = some Duel.COMPLETE)
    ∧ get_num_duel_draws dbCompleteDraw 5 = spec_num_complete_draws dbCompleteDraw 5
    ∧ get_num_duel_losses dbCompleteDraw 5 = spec_num_complete_losses dbCompleteDraw 5 :=
  ⟨by decide, (duel_counters_spec dbCompleteDraw 5).1 (by decide),
   (duel_counters_spec dbCompleteDraw 5).2⟩

/-- C7: for a vc id `v` that exists in `rated_vcs` (the foreign-key
precondition) and a well-keyed participation table, two successive
`update_vc_rating (v, u, ·)` calls succeed, leave exactly one participation
row keyed `(v, u)` — carrying the second rating — and do not disturb any
row with a different key. -/
theorem update_vc_rating_upsert (s : DbState) (v u : Nat) (r1 r2 : Int)
    (hvc : ∃ w ∈ s.rated_vcs, w.id = v)
    (hkeys : s.rated_vc_users.Pairwise fun a b =>
      ¬(a.vc_id = b.vc_id ∧ a.user_id = b.user_id)) :
    (update_vc_rating s v u r1).2 = .ok ()
    ∧ (update_vc_rating (update_vc_rating s v u r1).1 v u r2).2 = .ok ()
    ∧ (update_vc_rating (update_vc_rating s v u r1).1 v u r2).1.rated_vc_users.filter
        (vc_user_key v u) = [{ vc_id := v, user_id := u, rating := some r2 }]
    ∧ (update_vc_rating (update_vc_rating s v u r1).1 v u r2).1.rated_vc_users.filter
        (fun r => !vc_user_key v u r) =
      s.rated_vc_users.filter (fun r => !vc_user_key v u r) := by
  have hkp : s.rated_vc_users.Pairwise fun a b =>
      ¬(vc_user_key v u a = true ∧ vc_user_key v u b = true) := by
    refine hkeys.imp ?_
    intro a b hab hcon
    rcases hcon with ⟨ha, hb⟩
    simp only [vc_user_key, decide_eq_true_eq] at ha hb
    exact hab ⟨ha.1.trans hb.1.symm, ha.2.trans hb.2.symm⟩
  have hkeep : ∀ (d : Int) (r : RatedVcUserRow), vc_user_key v u r = true →
      vc_user_key v u ({ r with rating := some d } : RatedVcUserRow) = true := by
    intro d r hkr
    have hr' : r.vc_id = v ∧ r.user_id = u := by simpa [vc_user_key] using hkr
    simp [vc_user_key, hr'.1, hr'.2]
  by_cases hex : s.rated_vc_users.any (vc_user_key v u) = true
  · -- a row keyed (v, u) already exists: both calls take the map branch
    obtain ⟨x, hx, hkx⟩ := List.any_eq_true.mp hex
    have hs1a : (update_vc_rating s v u r1).1 =
        { s with rated_vc_users := s.rated_vc_users.map fun r =>
            if (vc_user_key v u r) then { r with rating := some r1 } else r } := by
      simp [update_vc_rating, hex]
    have hs1b : (update_vc_rating s v u r1).2 = .ok () := by
      simp [update_vc_rating, hex]
    have hx1mem : ({ x with rating := some r1 } : RatedVcUserRow) ∈
        s.rated_vc_users.map fun r =>
          if (vc_user_key v u r) then { r with rating := some r1 } else r := by
      refine List.mem_map.mpr ⟨x, hx, ?_⟩
      rw [if_pos hkx]
    have hkx1 : vc_user_key v u ({ x with rating := some r1 } : RatedVcUserRow) = true :=
      hkeep r1 x hkx
    have hex1 : (s.rated_vc_users.map fun r =>
        if (vc_user_key v u r) then { r with rating := some r1 } else r).any
          (vc_user_key v u) = true :=
      List.any_eq_true.mpr ⟨_, hx1mem, hkx1⟩
    have hs2b : (update_vc_rating
        ({ s with rated_vc_users := s.rated_vc_users.map fun r =>
            if (vc_user_key v u r) then { r with rating := some r1 } else r } : DbState)
        v u r2).2 = .ok () := by
      simp [update_vc_rating, hex1]
    have hs2c : (update_vc_rating
        ({ s with rated_vc_users := s.rated_vc_users.map fun r =>
            if (vc_user_key v u r) then { r with rating := some r1 } else r } : DbState)
        v u r2).1.rated_vc_users =
        (s.rated_vc_users.map fun r =>
          if (vc_user_key v u r) then { r with rating := some r1 } else r).map fun r =>
            if (vc_user_key v u r) then { r with rating := some r2 } else r := by
      simp [update_vc_rating, hex1]
    have hp1 : (s.rated_vc_users.map fun r =>
        if (vc_user_key v u r) then { r with rating := some r1 } else r).Pairwise
          fun a b => ¬(vc_user_key v u a = true ∧ vc_user_key v u b = true) := by
      rw [List.pairwise_map]
      refine hkp.imp ?_
      intro a b hab hcon
      rcases hcon with ⟨ha, hb⟩
      refine hab ⟨?_, ?_⟩
      · by_cases hka : vc_user_key v u a = true
        · exact hka
        · rw [if_neg hka] at ha; exact ha
      · by_cases hkb : vc_user_key v u b = true
        · exact hkb
        · rw [if_neg hkb] at hb; exact hb
    have hxvu : x.vc_id = v ∧ x.user_id = u := by
      simpa [vc_user_key] using hkx
    refine ⟨hs1b, ?_, ?_, ?_⟩
    · rw [hs1a, hs2b]
    · rw [hs1a, hs2c,
        guardedMap_filter_pos hp1 hx1mem hkx1 (hkeep r2 _ hkx1)]
      rcases x with ⟨xv, xu, xr⟩
      rcases hxvu with ⟨hv1, hu1⟩
      subst hv1
      subst hu1
      rfl
    · rw [hs1a, hs2c,
        guardedMap_filter_neg _ _ _ fun r _ => hkeep r2 r,
        guardedMap_filter_neg _ _ _ fun r _ => hkeep r1 r]
  · -- no row keyed (v, u): the first call inserts, the second overwrites
    have hex' : s.rated_vc_users.any (vc_user_key v u) = false :=
      Bool.eq_false_iff.mpr hex
    have hfk : (s.rated_vcs.any fun w => decide (w.id = v)) = true := by
      rcases hvc with ⟨w, hw, hwid⟩
      exact List.any_eq_true.mpr ⟨w, hw, by simp [hwid]⟩
    have hnew : vc_user_key v u
        ({ vc_id := v, user_id := u, rating := some r1 } : RatedVcUserRow) = true := by
      simp [vc_user_key]
    have hnomatch : ∀ r ∈ s.rated_vc_users, ¬vc_user_key v u r = true := by
      intro r hr hkr
      have hany : s.rated_vc_users.any (vc_user_key v u) = true :=
        List.any_eq_true.mpr ⟨r, hr, hkr⟩
      exact hex hany
    have hs1a : (update_vc_rating s v u r1).1 =
        { s with rated_vc_users := s.rated_vc_users ++
            [{ vc_id := v, user_id := u, rating := some r1 }] } := by
      simp [update_vc_rating, hex', hfk]
    have hs1b : (update_vc_rating s v u r1).2 = .ok () := by
      simp [update_vc_rating, hex', hfk]
    have happend : (s.rated_vc_users ++
        [({ vc_id := v, user_id := u, rating := some r1 } : RatedVcUserRow)]).Pairwise
          fun a b => ¬(vc_user_key v u a = true ∧ vc_user_key v u b = true) := by
      rw [List.pairwise_append]
      refine ⟨List.pairwise_of_forall_mem_list fun a ha b _hb hcon =>
          hnomatch a ha hcon.1, by simp, ?_⟩
      intro a ha b _hb hcon
      exact hnomatch a ha hcon.1
    have hmem1 : ({ vc_id := v, user_id := u, rating := some r1 } : RatedVcUserRow) ∈
        s.rated_vc_users ++ [({ vc_id := v, user_id := u, rating := some r1 } : RatedVcUserRow)] :=
      List.mem_append_right _ (List.mem_singleton.mpr rfl)
    have hex1 : (s.rated_vc_users ++
        [({ vc_id := v, user_id := u, rating := some r1 } : RatedVcUserRow)]).any
          (vc_user_key v u) = true :=
      List.any_eq_true.mpr ⟨_, hmem1, hnew⟩
    have hs2b : (update_vc_rating
        ({ s with rated_vc_users := s.rated_vc_users ++
            [{ vc_id := v, user_id := u, rating := some r1 }] } : DbState)
        v u r2).2 = .ok () := by
      simp [update_vc_rating, hex1]
    have hs2c : (update_vc_rating
        ({ s with rated_vc_users := s.rated_vc_users ++
            [{ vc_id := v, user_id := u, rating := some r1 }] } : DbState)
        v u r2).1.rated_vc_users =
        (s.rated_vc_users ++
          [({ vc_id := v, user_id := u, rating := some r1 } : RatedVcUserRow)]).map fun r =>
            if (vc_user_key v u r) then { r with rating := some r2 } else r := by
      simp [update_vc_rating, hex1]
    refine ⟨hs1b, ?_, ?_, ?_⟩
    · rw [hs1a, hs2b]
    · rw [hs1a, hs2c,
        guardedMap_filter_pos happend hmem1 hnew (hkeep r2 _ hnew)]
    · rw [hs1a, hs2c,
        guardedMap_filter_neg _ _ _ fun r _ => hkeep r2 r, List.filter_append]
      simp [hnew]

/-- C7, witness for `update_vc_rating_upsert` at `dbVcNoUsers` (vc 3 exists,
no participation rows). -/
theorem update_vc_rating_upsert_witness :
    (∃ w ∈ dbVcNoUsers.rated_vcs, w.id = 3)
    ∧ (dbVcNoUsers.rated_vc_users.Pairwise fun a b =>
        ¬(a.vc_id = b.vc_id ∧ a.user_id = b.user_id))
    ∧ (update_vc_rating (update_vc_rating dbVcNoUsers 3 4 1600).1 3 4
        1450).1.rated_vc_users.filter (vc_user_key 3 4) =
      [{ vc_id := 3, user_id := 4, rating := some 1450 }] :=
  ⟨by decide, by decide,
   (update_vc_rating_upsert dbVcNoUsers 3 4 1600 1450 (by decide) (by decide)).2.2.1⟩

/-- Two-predicate variant of `guardedMap_filter_pos`: the update guard `p`
refines the row key `k` (e.g. `p` = "id matches and status is GITGUD", `k` =
"id matches").  If the keys are exclusive and the match `x` satisfies the
guard, the filter on `k` after the guarded update is the singleton of the
rewritten match. -/
theorem guardedMap_filter_pos2 {α : Type} {l : List α} {p k : α → Bool}
    {g : α → α} {x : α}
    (hpk : ∀ r, p r = true → k r = true)
    (hkp : l.Pairwise fun a b => ¬(k a = true ∧ k b = true))
    (hx : x ∈ l) (hkx : k x = true) (hpx : p x = true) (hgk : k (g x) = true) :
    (l.map fun r => if p r then g r else r).filter k = [g x] := by
  induction l with
  | nil => cases hx
  | cons z zs ih =>
    rcases List.pairwise_cons.mp hkp with ⟨hz, hzs⟩
    rcases List.mem_cons.mp hx with rfl | hx'
    · have h0 : (zs.map fun r => if p r then g r else r).filter k = [] := by
        rw [List.filter_eq_nil_iff]
        intro a ha
        rcases List.mem_map.mp ha with ⟨b, hb, rfl⟩
        have hkb : ¬k b = true := fun hkb => hz b hb ⟨hkx, hkb⟩
        have hpb : ¬p b = true := fun hpb => hkb (hpk b hpb)
        rw [if_neg hpb]
        exact hkb
      rw [List.map_cons, if_pos hpx, List.filter_cons_of_pos hgk, h0]
    · have hkz : ¬k z = true := fun hkz => hz x hx' ⟨hkz, hkx⟩
      have hpz : ¬p z = true := fun hpz => hkz (hpk z hpz)
      rw [List.map_cons, if_neg hpz, List.filter_cons_of_neg (by simpa using hkz)]
      exact ih hzs hx'

/-- Two-predicate variant of `guardedMap_filter_neg`: rows outside the key
`k` are untouched by a guarded update whose guard `p` refines `k` and whose
rewrite keeps `k`. -/
theorem guardedMap_filter_neg2 {α : Type} (l : List α) (p k : α → Bool)
    (g : α → α) (hpk : ∀ r, p r = true → k r = true)
    (hkeep : ∀ r ∈ l, p r = true → k (g r) = true) :
    (l.map fun r => if p r then g r else r).filter (fun r => !k r) =
      l.filter (fun r => !k r) := by
  induction l with
  | nil => rfl
  | cons z zs ih =>
    have ih' := ih fun r hr => hkeep r (List.mem_cons_of_mem _ hr)
    cases hb : p z with
    | true =>
      have hkz : k z = true := hpk z hb
      have hgz : k (g z) = true := hkeep z (List.mem_cons_self _ _) hb
      rw [List.map_cons, if_pos hb, List.filter_cons_of_neg (by simp [hgz]),
          List.filter_cons_of_neg (by simp [hkz])]
      exact ih'
    | false =>
      rw [List.map_cons, if_neg (by simp [hb])]
      cases hk : k z with
      | true =>
        rw [List.filter_cons_of_neg (by simp [hk]), List.filter_cons_of_neg (by simp [hk])]
        exact ih'
      | false =>
        rw [List.filter_cons_of_pos (by simp [hk]), List.filter_cons_of_pos (by simp [hk])]
        rw [ih']

/-- C8 (amended): with challenge `c` currently GITGUD and the slot of user
`u` pointing at `c`, `complete_challenge` returns 1, marks the challenge
GOTGUD with the finish time, clears the slot, adds `delta` to the score and
increments `num_completed` — leaving `num_skipped` unchanged — and touches
no other row; `skip_challenge` returns 1, sets the challenge's status to
the supplied terminal value and clears the slot, leaving `score`,
`num_completed` and `num_skipped` all unchanged; and whenever the challenge
is not currently GITGUD or the slot does not match, both calls return 0 and
change nothing. -/
theorem challenge_transitions_spec (s : DbState) (u c : Nat) (t delta st : Int)
    (cr : ChallengeRow) (ur : UserChallengeRow)
    (hcnd : s.challenge.Pairwise fun a b => a.id ≠ b.id)
    (hund : s.user_challenge.Pairwise fun a b => a.user_id ≠ b.user_id)
    (hcm : cr ∈ s.challenge) (hcid : cr.id = c) (hcst : cr.status = Gitgud.GITGUD)
    (hum : ur ∈ s.user_challenge) (huid : ur.user_id = u)
    (hslot : ur.active_challenge_id = some c) :
    (complete_challenge s u c t delta).2 = 1
    ∧ (complete_challenge s u c t delta).1.challenge.filter
        (fun r => decide (r.id = c)) =
      [{ cr with finish_time := some t, status := Gitgud.GOTGUD }]
    ∧ (complete_challenge s u c t delta).1.challenge.filter
        (fun r => !decide (r.id = c)) =
      s.challenge.filter (fun r => !decide (r.id = c))
    ∧ (complete_challenge s u c t delta).1.user_challenge.filter
        (fun w => decide (w.user_id = u)) =
      [{ ur with score := ur.score + delta, num_completed := ur.num_completed + 1,
                 active_challenge_id := none, issue_time := none }]
    ∧ (complete_challenge s u c t delta).1.user_challenge.filter
        (fun w => !decide (w.user_id = u)) =
      s.user_challenge.filter (fun w => !decide (w.user_id = u))
    ∧ (skip_challenge s u c st).2 = 1
    ∧ (skip_challenge s u c st).1.challenge.filter (fun r => decide (r.id = c)) =
      [{ cr with status := st }]
    ∧ (skip_challenge s u c st).1.challenge.filter (fun r => !decide (r.id = c)) =
      s.challenge.filter (fun r => !decide (r.id = c))
    ∧ (skip_challenge s u c st).1.user_challenge.filter
        (fun w => decide (w.user_id = u)) =
      [{ ur with active_challenge_id := none, issue_time := none }]
    ∧ (skip_challenge s u c st).1.user_challenge.filter
        (fun w => !decide (w.user_id = u)) =
      s.user_challenge.filter (fun w => !decide (w.user_id = u))
    ∧ (∀ s2 : DbState,
        ((∀ r ∈ s2.challenge, ¬(r.id = c ∧ r.status = Gitgud.GITGUD)) ∨
         (∀ w ∈ s2.user_challenge, ¬(w.user_id = u ∧ w.active_challenge_id = some c))) →
        complete_challenge s2 u c t delta = (s2, 0)
        ∧ skip_challenge s2 u c st = (s2, 0)) := by
  have hcg : challenge_gitgud_guard c cr = true := by
    simp [challenge_gitgud_guard, hcid, hcst]
  have hug : user_challenge_slot_guard u c ur = true := by
    simp [user_challenge_slot_guard, huid, hslot]
  have hcpair : s.challenge.Pairwise fun a b =>
      ¬(challenge_gitgud_guard c a = true ∧ challenge_gitgud_guard c b = true) := by
    refine hcnd.imp ?_
    intro a b hab hcon
    rcases hcon with ⟨ha, hb⟩
    simp only [challenge_gitgud_guard, decide_eq_true_eq] at ha hb
    exact hab (ha.1.trans hb.1.symm)
  have hupair : s.user_challenge.Pairwise fun a b =>
      ¬(user_challenge_slot_guard u c a = true ∧ user_challenge_slot_guard u c b = true) := by
    refine hund.imp ?_
    intro a b hab hcon
    rcases hcon with ⟨ha, hb⟩
    simp only [user_challenge_slot_guard, decide_eq_true_eq] at ha hb
    exact hab (ha.1.trans hb.1.symm)
  have hckpair : s.challenge.Pairwise fun a b =>
      ¬((fun r : ChallengeRow => decide (r.id = c)) a = true ∧
        (fun r : ChallengeRow => decide (r.id = c)) b = true) := by
    refine hcnd.imp ?_
    intro a b hab hcon
    rcases hcon with ⟨ha, hb⟩
    simp only [decide_eq_true_eq] at ha hb
    exact hab (ha.trans hb.symm)
  have hukpair : s.user_challenge.Pairwise fun a b =>
      ¬((fun w : UserChallengeRow => decide (w.user_id = u)) a = true ∧
        (fun w : UserChallengeRow => decide (w.user_id = u)) b = true) := by
    refine hund.imp ?_
    intro a b hab hcon
    rcases hcon with ⟨ha, hb⟩
    simp only [decide_eq_true_eq] at ha hb
    exact hab (ha.trans hb.symm)
  have rc1 : s.challenge.countP (challenge_gitgud_guard c) = 1 :=
    countP_eq_one_of_key hcpair hcm hcg
  have rc2 : s.user_challenge.countP (user_challenge_slot_guard u c) = 1 :=
    countP_eq_one_of_key hupair hum hug
  have hcpk : ∀ r : ChallengeRow, challenge_gitgud_guard c r = true →
      decide (r.id = c) = true := by
    intro r hr
    simp only [challenge_gitgud_guard, decide_eq_true_eq] at hr
    simp [hr.1]
  have hupk : ∀ w : UserChallengeRow, user_challenge_slot_guard u c w = true →
      decide (w.user_id = u) = true := by
    intro w hw
    simp only [user_challenge_slot_guard, decide_eq_true_eq] at hw
    simp [hw.1]
  have hckx : decide (cr.id = c) = true := by simp [hcid]
  have hukx : decide (ur.user_id = u) = true := by simp [huid]
  have hresc2 : (complete_challenge s u c t delta).2 = 1 := by
    simp [complete_challenge, rc1, rc2]
  have hrescc : (complete_challenge s u c t delta).1.challenge =
      s.challenge.map fun r =>
        if (challenge_gitgud_guard c r) then
          { r with finish_time := some t, status := Gitgud.GOTGUD }
        else r := by
    simp [complete_challenge, rc1, rc2]
  have hrescu : (complete_challenge s u c t delta).1.user_challenge =
      s.user_challenge.map fun w =>
        if (user_challenge_slot_guard u c w) then
          { w with score := w.score + delta, num_completed := w.num_completed + 1,
                   active_challenge_id := none, issue_time := none }
        else w := by
    simp [complete_challenge, rc1, rc2]
  have hress2 : (skip_challenge s u c st).2 = 1 := by
    simp [skip_challenge, rc1, rc2]
  have hressc : (skip_challenge s u c st).1.challenge =
      s.challenge.map fun r =>
        if (challenge_gitgud_guard c r) then { r with status := st } else r := by
    simp [skip_challenge, rc1, rc2]
  have hressu : (skip_challenge s u c st).1.user_challenge =
      s.user_challenge.map fun w =>
        if (user_challenge_slot_guard u c w) then
          { w with active_challenge_id := none, issue_time := none }
        else w := by
    simp [skip_challenge, rc1, rc2]
  refine ⟨hresc2, ?_, ?_, ?_, ?_, hress2, ?_, ?_, ?_, ?_, ?_⟩
  · rw [hrescc]
    exact guardedMap_filter_pos2 hcpk hckpair hcm hckx hcg hckx
  · rw [hrescc]
    exact guardedMap_filter_neg2 _ _ _ _ hcpk fun r _ hr => hcpk r hr
  · rw [hrescu]
    exact guardedMap_filter_pos2 hupk hukpair hum hukx hug hukx
  · rw [hrescu]
    exact guardedMap_filter_neg2 _ _ _ _ hupk fun w _ hw => hupk w hw
  · rw [hressc]
    exact guardedMap_filter_pos2 hcpk hckpair hcm hckx hcg hckx
  · rw [hressc]
    exact guardedMap_filter_neg2 _ _ _ _ hcpk fun r _ hr => hcpk r hr
  · rw [hressu]
    exact guardedMap_filter_pos2 hupk hukpair hum hukx hug hukx
  · rw [hressu]
    exact guardedMap_filter_neg2 _ _ _ _ hupk fun w _ hw => hupk w hw
  · intro s2 hfail
    constructor
    · by_cases h1 : s2.challenge.countP (challenge_gitgud_guard c) = 1
      · rcases hfail with hnoc | hnou
        · have hpos : 0 < s2.challenge.countP (challenge_gitgud_guard c) := by omega
          obtain ⟨r, hr, hpr⟩ := List.countP_pos_iff.mp hpos
          have hr' : r.id = c ∧ r.status = Gitgud.GITGUD := by
            simpa [challenge_gitgud_guard] using hpr
          exact absurd hr' (hnoc r hr)
        · have h2 : s2.user_challenge.countP (user_challenge_slot_guard u c) = 0 := by
            rw [List.countP_eq_zero]
            intro w hw hpw
            exact hnou w hw (by simpa [user_challenge_slot_guard] using hpw)
          simp [complete_challenge, h1, h2]
      · simp [complete_challenge, h1]
    · by_cases h1 : s2.user_challenge.countP (user_challenge_slot_guard u c) = 1
      · rcases hfail with hnoc | hnou
        · have h2 : s2.challenge.countP (challenge_gitgud_guard c) = 0 := by
            rw [List.countP_eq_zero]
            intro r hr hpr
            exact hnoc r hr (by simpa [challenge_gitgud_guard] using hpr)
          simp [skip_challenge, h1, h2]
        · have hpos : 0 < s2.user_challenge.countP (user_challenge_slot_guard u c) := by
            omega
          obtain ⟨w, hw, hpw⟩ := List.countP_pos_iff.mp hpos
          have hw' : w.user_id = u ∧ w.active_challenge_id = some c := by
            simpa [user_challenge_slot_guard] using hpw
          exact absurd hw' (hnou w hw)
      · simp [skip_challenge, h1]

/-- C8, witness for `challenge_transitions_spec` at `dbActiveChallenge`. -/
theorem challenge_transitions_spec_witness :
    (dbActiveChallenge.challenge.Pairwise fun a b => a.id ≠ b.id)
    ∧ (dbActiveChallenge.user_challenge.Pairwise fun a b => a.user_id ≠ b.user_id)
    ∧ (complete_challenge dbActiveChallenge 7 1 9 50).2 = 1 :=
  ⟨by decide, by decide,
   (challenge_transitions_spec dbActiveChallenge 7 1 9 50 Gitgud.NOGUD
      { id := 1, user_id := 7, issue_time := 5, finish_time := none,
        problem_name := "p", contest_id := 2, p_index := "A",
        rating_delta := 50, status := Gitgud.GITGUD }
      { user_id := 7, active_challenge_id := some 1, issue_time := some 5,
        score := 0, num_completed := 0, num_skipped := 0 }
      (by decide) (by decide) (by decide) rfl rfl (by decide) rfl rfl).1⟩

/-- C9: with `user_handle` satisfying its primary key
(`(user_id, guild_id)`) and its unique index (`(guild_id, handle)`): if
handle `h0` is active for a different user in guild `g`, `set_handle`
raises `UniqueConstraintFailed` leaving the table unchanged (the returned
state is `s` itself); if `h0` is already bound to `u` in `g`, the call
succeeds with rowcount 1 and `u`'s binding for `g` still maps to `h0`. -/
theorem set_handle_spec (s : DbState) (u g : Nat) (h0 : String)
    (hpk : s.user_handle.Pairwise fun a b =>
      ¬(a.user_id = b.user_id ∧ a.guild_id = b.guild_id))
    (hix : s.user_handle.Pairwise fun a b =>
      ¬(a.guild_id = b.guild_id ∧ a.handle = b.handle)) :
    (∀ r ∈ s.user_handle, r.guild_id = g → r.handle = h0 → r.active = 1 →
        r.user_id ≠ u → set_handle s u g h0 = (s, .error .uniqueConstraintFailed))
    ∧ (∀ r ∈ s.user_handle, r.user_id = u → r.guild_id = g → r.handle = h0 →
        (set_handle s u g h0).2 = .ok 1
        ∧ get_handle (set_handle s u g h0).1 u g = some h0) := by
  have hixp : s.user_handle.Pairwise fun a b =>
      ¬(handle_key g h0 a = true ∧ handle_key g h0 b = true) := by
    refine hix.imp ?_
    intro a b hab hcon
    rcases hcon with ⟨ha, hb⟩
    simp only [handle_key, decide_eq_true_eq] at ha hb
    exact hab ⟨ha.1.trans hb.1.symm, ha.2.trans hb.2.symm⟩
  have hpkp : s.user_handle.Pairwise fun a b =>
      ¬(user_guild_key u g a = true ∧ user_guild_key u g b = true) := by
    refine hpk.imp ?_
    intro a b hab hcon
    rcases hcon with ⟨ha, hb⟩
    simp only [user_guild_key, decide_eq_true_eq] at ha hb
    exact hab ⟨ha.1.trans hb.1.symm, ha.2.trans hb.2.symm⟩
  constructor
  · intro r hr hg hh ha hne
    have hkr : handle_key g h0 r = true := by simp [handle_key, hg, hh]
    have hfilter : s.user_handle.filter (handle_key g h0) = [r] :=
      filter_eq_singleton_of_key hixp hr hkr
    simp [set_handle, hfilter, hne]
  · intro r hr hu hg hh
    have hkr : handle_key g h0 r = true := by simp [handle_key, hg, hh]
    have hfilter : s.user_handle.filter (handle_key g h0) = [r] :=
      filter_eq_singleton_of_key hixp hr hkr
    have hugr : user_guild_key u g r = true := by simp [user_guild_key, hu, hg]
    have hany : s.user_handle.any (user_guild_key u g) = true :=
      List.any_eq_true.mpr ⟨r, hr, hugr⟩
    have hupd : (set_handle s u g h0).1.user_handle =
        s.user_handle.map fun q =>
          if (user_guild_key u g q) then { q with handle := h0, active := 1 }
          else q := by
      simp [set_handle, hfilter, hu, set_handle_upsert, hany]
    refine ⟨?_, ?_⟩
    · simp [set_handle, hfilter, hu, set_handle_upsert, hany]
    · rw [get_handle, hupd,
        guardedMap_filter_pos hpkp hr hugr (by simpa [user_guild_key] using
          (by simpa [user_guild_key] using hugr : r.user_id = u ∧ r.guild_id = g))]
      rfl

/-- C9, witness for `set_handle_spec` at `dbAliceHandle` ("alice" active for
user 10 in guild 7): claiming it for user 11 raises with the table
unchanged; re-binding it for user 10 succeeds and the binding persists. -/
theorem set_handle_spec_witness :
    (dbAliceHandle.user_handle.Pairwise fun a b =>
      ¬(a.user_id = b.user_id ∧ a.guild_id = b.guild_id))
    ∧ (dbAliceHandle.user_handle.Pairwise fun a b =>
      ¬(a.guild_id = b.guild_id ∧ a.handle = b.handle))
    ∧ set_handle dbAliceHandle 11 7 "alice" =
        (dbAliceHandle, .error .uniqueConstraintFailed)
    ∧ (set_handle dbAliceHandle 10 7 "alice").2 = .ok 1
    ∧ get_handle (set_handle dbAliceHandle 10 7 "alice").1 10 7 = some "alice" :=
  ⟨by decide, by decide,
   (set_handle_spec dbAliceHandle 11 7 "alice" (by decide) (by decide)).1
     { user_id := 10, guild_id := 7, handle := "alice", active := 1 }
     (by decide) rfl rfl rfl (by decide),
   ((set_handle_spec dbAliceHandle 10 7 "alice" (by decide) (by decide)).2
     { user_id := 10, guild_id := 7, handle := "alice", active := 1 }
     (by decide) rfl rfl rfl).1,
   ((set_handle_spec dbAliceHandle 10 7 "alice" (by decide) (by decide)).2
     { user_id := 10, guild_id := 7, handle := "alice", active := 1 }
     (by decide) rfl rfl rfl).2⟩

/-- C10: with the participation table satisfying its `(vc_id, user_id)`
primary key, `remove_last_ratedvc_participation(u0)` deletes exactly the
row of `u0` with the largest `vc_id` among all of `u0`'s rows — rows with a
NULL rating included, since the MAX query has no rating filter — and
returns 1; for a user with no participation rows it deletes nothing and
returns 0 (the operation is a total function of the state — it cannot
raise). -/
theorem remove_last_participation_spec (s : DbState) (u0 : Nat)
    (hpk : s.rated_vc_users.Pairwise fun a b =>
      ¬(a.vc_id = b.vc_id ∧ a.user_id = b.user_id)) :
    ((∀ r ∈ s.rated_vc_users, r.user_id ≠ u0) →
        remove_last_ratedvc_participation s u0 = (s, 0))
    ∧ (∀ r0 ∈ s.rated_vc_users, r0.user_id = u0 →
        ∃ m, (∃ rm ∈ s.rated_vc_users, rm.user_id = u0 ∧ rm.vc_id = m)
          ∧ (∀ r ∈ s.rated_vc_users, r.user_id = u0 → r.vc_id ≤ m)
          ∧ (remove_last_ratedvc_participation s u0).2 = 1
          ∧ (remove_last_ratedvc_participation s u0).1.rated_vc_users =
              s.rated_vc_users.filter fun r => !remove_guard u0 (some m) r) := by
  constructor
  · intro h
    have hfl : s.rated_vc_users.filter (fun r => decide (r.user_id = u0)) = [] := by
      rw [List.filter_eq_nil_iff]
      intro a ha hpa
      exact h a ha (by simpa using hpa)
    have h1 : s.rated_vc_users.countP (remove_guard u0 none) = 0 := by
      rw [List.countP_eq_zero]
      intro a _ha
      simp [remove_guard]
    have h2 : s.rated_vc_users.filter (fun r => !remove_guard u0 none r) =
        s.rated_vc_users := by
      rw [List.filter_eq_self]
      intro a _ha
      simp [remove_guard]
    simp [remove_last_ratedvc_participation, hfl, sqlMaxNat, h1, h2]
  · intro r0 hr0 hu
    have hmem_vc : r0.vc_id ∈
        (s.rated_vc_users.filter fun r => decide (r.user_id = u0)).map
          fun r => r.vc_id :=
      List.mem_map.mpr ⟨r0, List.mem_filter.mpr ⟨hr0, by simp [hu]⟩, rfl⟩
    cases hm : sqlMaxNat ((s.rated_vc_users.filter fun r =>
        decide (r.user_id = u0)).map fun r => r.vc_id) with
    | none =>
      exfalso
      have := sqlMaxNat_eq_none hm
      rw [this] at hmem_vc
      cases hmem_vc
    | some m =>
      obtain ⟨rm, hrmf, hrmvc⟩ := List.mem_map.mp (sqlMaxNat_mem hm)
      obtain ⟨hrm_mem, hrm_user⟩ := List.mem_filter.mp hrmf
      have hrm_user' : rm.user_id = u0 := by simpa using hrm_user
      have hub : ∀ r ∈ s.rated_vc_users, r.user_id = u0 → r.vc_id ≤ m := by
        intro r hr hru
        exact sqlMaxNat_ub hm r.vc_id
          (List.mem_map.mpr ⟨r, List.mem_filter.mpr ⟨hr, by simp [hru]⟩, rfl⟩)
      have hgrm : remove_guard u0 (some m) rm = true := by
        simp [remove_guard, hrm_user', hrmvc]
      have hgpair : s.rated_vc_users.Pairwise fun a b =>
          ¬(remove_guard u0 (some m) a = true ∧ remove_guard u0 (some m) b = true) := by
        refine hpk.imp ?_
        intro a b hab hcon
        rcases hcon with ⟨ha, hb⟩
        simp only [remove_guard, decide_eq_true_eq, Option.some_inj] at ha hb
        exact hab ⟨ha.2.trans hb.2.symm, ha.1.trans hb.1.symm⟩
      have rc : s.rated_vc_users.countP (remove_guard u0 (some m)) = 1 :=
        countP_eq_one_of_key hgpair hrm_mem hgrm
      refine ⟨m, ⟨rm, hrm_mem, hrm_user', hrmvc⟩, hub, ?_, ?_⟩
      · simp [remove_last_ratedvc_participation, hm, rc]
      · simp [remove_last_ratedvc_participation, hm]

/-- C10, witness for `remove_last_participation_spec` at
`dbTwoParticipations` (user 4 has rows for vcs 3 and 7, the latter with a
NULL rating; user 9 has none). -/
theorem remove_last_participation_spec_witness :
    (dbTwoParticipations.rated_vc_users.Pairwise fun a b =>
      ¬(a.vc_id = b.vc_id ∧ a.user_id = b.user_id))
    ∧ remove_last_ratedvc_participation dbTwoParticipations 9 =
        (dbTwoParticipations, 0)
    ∧ (remove_last_ratedvc_participation dbTwoParticipations 4).2 = 1 :=
  ⟨by decide,
   (remove_last_participation_spec dbTwoParticipations 9 (by decide)).1 (by decide),
   by
     obtain ⟨m, _hmem, _hub, hrc, _hst⟩ :=
       (remove_last_participation_spec dbTwoParticipations 4 (by decide)).2
         { vc_id := 3, user_id := 4, rating := some 1600 } (by decide) rfl
     exact hrc⟩

end TLE
